import Mathlib

/-!
Verification of the response-verification engine of the New_Pet_Api test
harness (`src/tools/assertions/`): the recursive value extractor, the
assertion primitives, the composite check runner, the query-filter
verifier, JSON schema validation and XSD path registration, shallowly
embedded in Lean.

Conventions of the embedding:
* Python functions that raise become Lean functions into `Except PyError`;
  each `raise` site is mapped to a structured `PyError` constructor
  (the human-readable message strings are abstracted into the
  constructor's payload).
* `response.json()` / `ET.fromstring(response.text)` are modelled by the
  `Response` record carrying the parse results directly:
  `json_body : Option JValue` (`none` = the raw text is not valid JSON)
  and `xml_body : Option XmlElem` (`none` = not well-formed XML).
* JSON numbers are modelled as integers: every numeric literal involved
  in the verified claims is integral, and none of the verified code
  inspects numeric values beyond equality.
* Allure attachments and logging are pure side channels with no effect
  on control flow or results, and are not modelled.
-/

namespace NewPetApi

/-- Parsed JSON documents, as produced by `response.json()` (Python
`json.loads`): objects are insertion-ordered mappings with unique keys,
modelled as association lists. -/
inductive JValue where
  | null
  | bool (b : Bool)
  | num (n : Int)
  | str (s : String)
  | arr (items : List JValue)
  | obj (fields : List (String × JValue))

/-- Python `dict` lookup `d[key]` / `key in d` on the association-list
model of a JSON object (keys of a Python dict are unique, so the first
match is the only match). -/
def lookupField : List (String × JValue) → String → Option JValue
  | [], _ => none
  | (k, v) :: rest, key => if k = key then some v else lookupField rest key

mutual

/-- Structural equality of parsed JSON values (Python `==` on the values
returned by `json.loads`, restricted to the modelled value domain). -/
def beqJ : JValue → JValue → Bool
  | .null, .null => true
  | .bool a, .bool b => a == b
  | .num a, .num b => a == b
  | .str a, .str b => a == b
  | .arr xs, .arr ys => beqJList xs ys
  | .obj xs, .obj ys => beqJFields xs ys
  | _, _ => false

/-- Elementwise equality of JSON arrays. -/
def beqJList : List JValue → List JValue → Bool
  | [], [] => true
  | x :: xs, y :: ys => beqJ x y && beqJList xs ys
  | _, _ => false

/-- Fieldwise equality of JSON objects. -/
def beqJFields : List (String × JValue) → List (String × JValue) → Bool
  | [], [] => true
  | (k1, v1) :: xs, (k2, v2) :: ys => k1 == k2 && beqJ v1 v2 && beqJFields xs ys
  | _, _ => false

end

theorem beqJ_iff :
    (∀ a b : JValue, beqJ a b = true ↔ a = b) ∧
    (∀ xs ys : List (String × JValue), beqJFields xs ys = true ↔ xs = ys) ∧
    (∀ xs ys : List JValue, beqJList xs ys = true ↔ xs = ys) := by
  refine beqJ.mutual_induct
    (fun a b => beqJ a b = true ↔ a = b)
    (fun xs ys => beqJFields xs ys = true ↔ xs = ys)
    (fun xs ys => beqJList xs ys = true ↔ xs = ys)
    ?_ ?_ ?_ ?_ ?_ ?_ ?_ ?_ ?_ ?_ ?_ ?_ ?_
  · simp [beqJ]
  · intro a b; simp [beqJ]
  · intro a b; simp [beqJ]
  · intro a b; simp [beqJ]
  · intro xs ys ih; simp [beqJ, ih]
  · intro xs ys ih; simp [beqJ, ih]
  · intro t x h1 h2 h3 h4 h5 h6
    cases t <;> cases x <;> simp_all [beqJ]
  · simp [beqJList]
  · intro x xs y ys ihx ihxs; simp [beqJList, ihx, ihxs]
  · intro t x h1 h2
    cases t <;> cases x
    · simp [beqJList]
    · simp [beqJList]
    · simp [beqJList]
    · exact (h2 _ _ _ _ rfl rfl).elim
  · simp [beqJFields]
  · intro k1 v1 xs k2 v2 ys ihv ihxs
    simp [beqJFields, ihv, ihxs]
  · intro t x h1 h2
    rcases t with _ | ⟨⟨k1, v1⟩, xs⟩ <;> rcases x with _ | ⟨⟨k2, v2⟩, ys⟩
    · simp [beqJFields]
    · simp [beqJFields]
    · simp [beqJFields]
    · exact (h2 _ _ _ _ _ _ rfl rfl).elim

instance : BEq JValue := ⟨beqJ⟩

theorem beqJ_eq_iff (a b : JValue) : (a == b) = true ↔ a = b := beqJ_iff.1 a b

instance : LawfulBEq JValue where
  eq_of_beq h := (beqJ_eq_iff _ _).mp h
  rfl := (beqJ_eq_iff _ _).mpr rfl

instance : DecidableEq JValue := fun a b =>
  decidable_of_iff (beqJ a b = true) (beqJ_iff.1 a b)

mutual

/-- Embeds `find_key_values(data, key, matches)` of
`base_assertions.py` (nested in `assert_body_key_values`): recursively
walks the parsed JSON, appending `data[key]` for every mapping that
contains `key`, then recursing into every value of every mapping and
every element of every list (so occurrences inside the matched value
are collected too).  The Python function mutates the accumulator list
`matches` in place; here the grown list is returned. -/
def find_key_values (data : JValue) (key : String) (acc : List JValue) :
    List JValue :=
  match data with
  | .obj fields =>
      let acc1 :=
        match lookupField fields key with
        | some v => acc ++ [v]
        | none => acc
      find_key_values_fields fields key acc1
  | .arr items => find_key_values_items items key acc
  | _ => acc

/-- The `for value in data.values()` loop of `find_key_values`. -/
def find_key_values_fields (fields : List (String × JValue)) (key : String)
    (acc : List JValue) : List JValue :=
  match fields with
  | [] => acc
  | (_, v) :: rest => find_key_values_fields rest key (find_key_values v key acc)

/-- The `for item in data` loop of `find_key_values`. -/
def find_key_values_items (items : List JValue) (key : String)
    (acc : List JValue) : List JValue :=
  match items with
  | [] => acc
  | v :: rest => find_key_values_items rest key (find_key_values v key acc)

end

mutual

/-- Embeds `_find_values_recursively(current_data, target_key, found_list)`
of `base_assertions.py` (nested in `get_all_key_values`); its body is
identical to `find_key_values` up to renaming. -/
def _find_values_recursively (current_data : JValue) (target_key : String)
    (found_list : List JValue) : List JValue :=
  match current_data with
  | .obj fields =>
      let acc1 :=
        match lookupField fields target_key with
        | some v => found_list ++ [v]
        | none => found_list
      _find_values_recursively_fields fields target_key acc1
  | .arr items => _find_values_recursively_items items target_key found_list
  | _ => found_list

/-- The `for value_in_dict in current_data.values()` loop. -/
def _find_values_recursively_fields (fields : List (String × JValue))
    (target_key : String) (acc : List JValue) : List JValue :=
  match fields with
  | [] => acc
  | (_, v) :: rest =>
      _find_values_recursively_fields rest target_key
        (_find_values_recursively v target_key acc)

/-- The `for item_in_list in current_data` loop. -/
def _find_values_recursively_items (items : List JValue)
    (target_key : String) (acc : List JValue) : List JValue :=
  match items with
  | [] => acc
  | v :: rest =>
      _find_values_recursively_items rest target_key
        (_find_values_recursively v target_key acc)

end

mutual

/-- Specification-side definition: the multiset of values stored at the
occurrences of `key` in a document — one value contributed by every
mapping anywhere in the document that contains `key`.  Written
independently of the extractor (direct structural sum, no accumulator)
so that agreement with `find_key_values` is a meaningful theorem. -/
def occ_values (key : String) : JValue → Multiset JValue
  | .obj fields =>
      (match lookupField fields key with
       | some v => {v}
       | none => 0) + occ_values_fields key fields
  | .arr items => occ_values_items key items
  | _ => 0

/-- Occurrence values summed over an object's field values. -/
def occ_values_fields (key : String) : List (String × JValue) → Multiset JValue
  | [] => 0
  | (_, v) :: rest => occ_values key v + occ_values_fields key rest

/-- Occurrence values summed over an array's elements. -/
def occ_values_items (key : String) : List JValue → Multiset JValue
  | [] => 0
  | v :: rest => occ_values key v + occ_values_items key rest

end

theorem find_key_values_spec :
    (∀ (d : JValue) (key : String) (acc : List JValue),
      (find_key_values d key acc : Multiset JValue) =
        (acc : Multiset JValue) + occ_values key d) ∧
    (∀ (l : List JValue) (key : String) (acc : List JValue),
      (find_key_values_items l key acc : Multiset JValue) =
        (acc : Multiset JValue) + occ_values_items key l) ∧
    (∀ (fs : List (String × JValue)) (key : String) (acc : List JValue),
      (find_key_values_fields fs key acc : Multiset JValue) =
        (acc : Multiset JValue) + occ_values_fields key fs) := by
  refine find_key_values.mutual_induct
    (fun d key acc => (find_key_values d key acc : Multiset JValue) =
      (acc : Multiset JValue) + occ_values key d)
    (fun l key acc => (find_key_values_items l key acc : Multiset JValue) =
      (acc : Multiset JValue) + occ_values_items key l)
    (fun fs key acc => (find_key_values_fields fs key acc : Multiset JValue) =
      (acc : Multiset JValue) + occ_values_fields key fs)
    ?_ ?_ ?_ ?_ ?_ ?_ ?_
  · intro key acc fields acc1 ih
    have hacc1 : acc1 = (match lookupField fields key with
        | some v => acc ++ [v]
        | none => acc) := rfl
    clear_value acc1
    cases h : lookupField fields key <;> rw [h] at hacc1 <;> subst hacc1 <;>
      simp_all [find_key_values, occ_values, h, ← Multiset.coe_add,
        Multiset.coe_singleton, add_comm, add_assoc, add_left_comm]
  · intro key acc items ih
    simp [find_key_values, occ_values, ih]
  · intro t key acc h1 h2
    cases t <;> simp_all [find_key_values, occ_values]
  · intro key acc
    simp [find_key_values_items, occ_values_items]
  · intro key acc v rest ihv ihrest
    simp [find_key_values_items, occ_values_items, ihv, ihrest, add_assoc]
  · intro key acc
    simp [find_key_values_fields, occ_values_fields]
  · intro key acc k v rest ihv ihrest
    simp [find_key_values_fields, occ_values_fields, ihv, ihrest, add_assoc]

theorem _find_values_recursively_eq_find_key_values :
    (∀ (d : JValue) (k : String) (acc : List JValue),
      _find_values_recursively d k acc = find_key_values d k acc) ∧
    (∀ (l : List JValue) (k : String) (acc : List JValue),
      _find_values_recursively_items l k acc = find_key_values_items l k acc) ∧
    (∀ (fs : List (String × JValue)) (k : String) (acc : List JValue),
      _find_values_recursively_fields fs k acc = find_key_values_fields fs k acc) := by
  refine _find_values_recursively.mutual_induct
    (fun d k acc => _find_values_recursively d k acc = find_key_values d k acc)
    (fun l k acc =>
      _find_values_recursively_items l k acc = find_key_values_items l k acc)
    (fun fs k acc =>
      _find_values_recursively_fields fs k acc = find_key_values_fields fs k acc)
    ?_ ?_ ?_ ?_ ?_ ?_ ?_
  · intro k acc fields acc1 ih
    have hacc1 : acc1 = (match lookupField fields k with
        | some v => acc ++ [v]
        | none => acc) := rfl
    clear_value acc1
    cases h : lookupField fields k <;> rw [h] at hacc1 <;> subst hacc1 <;>
      simp_all [_find_values_recursively, find_key_values, h]
  · intro k acc items ih
    simp [_find_values_recursively, find_key_values, ih]
  · intro t k acc h1 h2
    cases t <;> simp_all [_find_values_recursively, find_key_values]
  · intro k acc
    simp [_find_values_recursively_items, find_key_values_items]
  · intro k acc v rest ihv ihrest
    simp only [_find_values_recursively_items, find_key_values_items]
    rw [← ihv]; exact ihrest
  · intro k acc
    simp [_find_values_recursively_fields, find_key_values_fields]
  · intro k acc f v rest ihv ihrest
    simp only [_find_values_recursively_fields, find_key_values_fields]
    rw [← ihv]; exact ihrest

/-! ### XML documents (`xml.etree.ElementTree`) -/

/-- A parsed XML element: tag name, text content (`None` when the element
has no text), child elements in document order.  Attributes are never
consulted by the verified code and are not modelled. -/
inductive XmlElem where
  | elem (tag : String) (text : Option String) (children : List XmlElem)

/-- The element's tag name (`elem.tag`). -/
def XmlElem.tag : XmlElem → String
  | .elem t _ _ => t

/-- The element's text content (`elem.text`). -/
def XmlElem.textContent : XmlElem → Option String
  | .elem _ x _ => x

/-- The element's direct children. -/
def XmlElem.children : XmlElem → List XmlElem
  | .elem _ _ c => c

mutual

/-- All elements strictly below the given element, in document
(preorder) order: the search space of `root.findall(".//tag")`, which
matches descendants only, never the root itself. -/
def subelements : XmlElem → List XmlElem
  | .elem _ _ children => subelements_list children

/-- Preorder listing of a forest of elements. -/
def subelements_list : List XmlElem → List XmlElem
  | [] => []
  | c :: rest => c :: (subelements c ++ subelements_list rest)

end

/-- `root.findall(".//tag")`: every descendant element of `root` (the
root itself excluded) whose tag equals `tag`, in document order. -/
def findall_desc (root : XmlElem) (tag : String) : List XmlElem :=
  (subelements root).filter (fun e => e.tag == tag)

/-! ### Responses and errors -/

/-- An immutable captured HTTP response (`httpx.Response`) as consumed by
the assertion layer.  `json_body`/`xml_body` carry the result of
attempting to parse the raw text as JSON (`response.json()`) or XML
(`ET.fromstring(response.text)`): `none` means that parse raises. -/
structure Response where
  status_code : Int
  elapsed_seconds : Rat
  headers : List (String × String)
  json_body : Option JValue
  xml_body : Option XmlElem

/-- `response.is_success` of httpx: status in the 2xx range. -/
def Response.is_success (r : Response) : Bool :=
  200 ≤ r.status_code && r.status_code < 300

/-- ASCII lower-casing of one character (header names are ASCII). -/
def char_lower (c : Char) : Char :=
  if 'A' ≤ c && c ≤ 'Z' then Char.ofNat (c.toNat + 32) else c

/-- Python's `str.lower()` restricted to ASCII, as applied to header
names. -/
def str_lower (s : String) : String := ⟨s.data.map char_lower⟩

/-- Case-insensitive header lookup, the access discipline of
`httpx.Headers` (`response.headers.get(name)` / `name in
response.headers`). -/
def headers_get (headers : List (String × String)) (name : String) :
    Option String :=
  (headers.find? (fun p => str_lower p.1 == str_lower name)).map (fun p => p.2)

/-- Plain case-sensitive Python `dict.get` for string dictionaries
(used for `checks["request_headers"].get("Accept")`). -/
def dict_get (d : List (String × String)) (k : String) : Option String :=
  (d.find? (fun p => p.1 == k)).map (fun p => p.2)

/-- One entry of the mismatch list built by `assert_body_key_values`:
either the key was found in no record, or it was found but no occurrence
carried the expected value. -/
inductive KVIssue where
  | keyNotFound (key : String)
  | noMatch (key : String) (found : List JValue)
deriving DecidableEq

/-- One entry of the error list built by `assert_xml_tag_value`. -/
inductive TagIssue where
  | tagNotFound (tag : String)
  | noValueMatch (tag : String) (found : List String)
deriving DecidableEq

/-- Structured stand-ins for the exceptions raised by the assertion
layer: each constructor corresponds to one `raise` site (AssertionError
messages are abstracted into the payload; `keyError`, `valueError`,
`typeError` and `fileNotFound` model the corresponding Python exception
classes). -/
inductive PyError where
  | statusMismatch (expected actual : Int)
  | responseTimeExceeded (elapsed maxTime : Rat)
  | headersNotFound (missing : List String)
  | headerValueMismatches (issues : List (String × String × Option String))
  | bodyNotJson
  | bodyKeysNotFound (missing : List String)
  | bodyKeyValueMismatches (issues : List KVIssue)
  | bodyNotXml
  | xmlTagsNotFound (tags : List String)
  | xmlTagNotFound (tag : String)
  | xmlTagValueIssues (issues : List TagIssue)
  | jsonSchemaFailed
  | xmlSchemaFailed
  | typeError
  | valueError (msg : String)
  | keyError (key : String)
  | fileNotFound (path : String)
  | filterMismatch (key : String) (found expected : JValue)
deriving DecidableEq

instance {ε α : Type} [DecidableEq ε] [DecidableEq α] :
    DecidableEq (Except ε α) := fun x y =>
  match x, y with
  | .ok a, .ok b =>
    if h : a = b then isTrue (by rw [h]) else isFalse (by simp [h])
  | .error a, .error b =>
    if h : a = b then isTrue (by rw [h]) else isFalse (by simp [h])
  | .ok _, .error _ => isFalse (by simp)
  | .error _, .ok _ => isFalse (by simp)

/-- Sequencing of two checks under fail-fast semantics: the second runs
only if the first passed (Python statement sequencing, where the first
`raise` aborts the rest). -/
def andThen (a b : Except PyError Unit) : Except PyError Unit :=
  match a with
  | .error e => .error e
  | .ok _ => b

/-! ### Assertion primitives (`BaseResponseAsserts`) -/

/-- `assert_status_code`: raises unless the actual status equals the
expected one. -/
def assert_status_code (response : Response) (expected_status : Int) :
    Except PyError Unit :=
  if response.status_code ≠ expected_status then
    .error (.statusMismatch expected_status response.status_code)
  else .ok ()

/-- `assert_response_time`: raises when the elapsed time strictly
exceeds the ceiling. -/
def assert_response_time (response : Response) (max_time : Rat) :
    Except PyError Unit :=
  if response.elapsed_seconds > max_time then
    .error (.responseTimeExceeded response.elapsed_seconds max_time)
  else .ok ()

/-- `assert_headers_present`: collects the expected header names that are
absent (case-insensitively) and raises when any are missing. -/
def assert_headers_present (response : Response)
    (expected_headers : List String) : Except PyError Unit :=
  let missing := expected_headers.filter
    (fun h => (headers_get response.headers h).isNone)
  if missing.isEmpty then .ok () else .error (.headersNotFound missing)

/-- `assert_header_values`: for each `(header, expected)` pair compares
`response.headers.get(header.lower())` with the expected value (an
absent header, read as `None`, never equals an expected string) and
raises with the full mismatch list when any differ. -/
def assert_header_values (response : Response)
    (expected_headers : List (String × String)) : Except PyError Unit :=
  let issues := expected_headers.filterMap (fun p =>
    let actual := headers_get response.headers p.1
    if actual = some p.2 then none else some (p.1, p.2, actual))
  if issues.isEmpty then .ok () else .error (.headerValueMismatches issues)

/-- Python's substring test `needle in haystack` on strings. -/
def substr_in (needle haystack : String) : Bool :=
  decide (needle.toList <:+: haystack.toList)

/-- Python's membership test `k in body` on a parsed JSON value: key
membership for mappings, element equality for lists, substring test for
strings, `TypeError` otherwise (numbers, booleans, `None` are not
containers). -/
def py_in_body (k : String) : JValue → Except PyError Bool
  | .obj fields => .ok (lookupField fields k).isSome
  | .arr items => .ok (items.any (fun v => v == JValue.str k))
  | .str s => .ok (substr_in k s)
  | _ => .error .typeError

/-- The list comprehension
`[k for k in expected_keys if k not in body]` of
`assert_body_keys_present` (left to right; a non-container body raises
`TypeError` at the first membership test). -/
def missing_keys_in_body (body : JValue) :
    List String → Except PyError (List String)
  | [] => .ok []
  | k :: rest =>
    match py_in_body k body with
    | .error e => .error e
    | .ok present =>
      match missing_keys_in_body body rest with
      | .error e => .error e
      | .ok restMissing =>
        .ok (if present then restMissing else k :: restMissing)

/-- `assert_body_keys_present`: parses the body as JSON, then requires
every expected key to be a member of the top-level document (plain
`k in body`, not a recursive search), raising with the list of missing
keys otherwise. -/
def assert_body_keys_present (response : Response)
    (expected_keys : List String) : Except PyError Unit :=
  match response.json_body with
  | none => .error .bodyNotJson
  | some body =>
    match missing_keys_in_body body expected_keys with
    | .error e => .error e
    | .ok missing =>
      if missing.isEmpty then .ok () else .error (.bodyKeysNotFound missing)

/-- The mismatch-collecting loop of `assert_body_key_values`: for each
`(key, expected)` pair, extract all occurrences with `find_key_values`;
record "key not found" when there are none, record the found values when
none of them equals the expected value, and pass when ANY occurrence
matches. -/
def kv_mismatches (body : JValue) :
    List (String × JValue) → List KVIssue
  | [] => []
  | (key, expected) :: rest =>
    let found := find_key_values body key []
    let tail := kv_mismatches body rest
    if found.isEmpty then .keyNotFound key :: tail
    else if found.any (fun v => v == expected) then tail
    else .noMatch key found :: tail

/-- `assert_body_key_values`: parses the body as JSON and raises with the
collected mismatch list unless, for every requested key, at least one
extracted occurrence equals the expected value. -/
def assert_body_key_values (response : Response)
    (expected_values : List (String × JValue)) : Except PyError Unit :=
  match response.json_body with
  | none => .error .bodyNotJson
  | some body =>
    let issues := kv_mismatches body expected_values
    if issues.isEmpty then .ok () else .error (.bodyKeyValueMismatches issues)

/-! ### JSON schema validation (pydantic models) -/

/-- `ChallengeSchema` of `schema/challenges_model.py` as a validation
predicate on the keyword arguments `schema(**body)` receives: required
`int` id, required `str` name, optional `str` description (explicit
`null` allowed), required `bool` status, extra fields forbidden
(`Config.extra = "forbid"`).  Pydantic's lax coercion of numeric
strings is not modelled; the verified instances avoid it. -/
def ChallengeSchema_validate (kwargs : List (String × JValue)) : Bool :=
  (match lookupField kwargs "id" with
   | some (.num _) => true
   | _ => false) &&
  (match lookupField kwargs "name" with
   | some (.str _) => true
   | _ => false) &&
  (match lookupField kwargs "description" with
   | some (.str _) => true
   | some .null => true
   | none => true
   | _ => false) &&
  (match lookupField kwargs "status" with
   | some (.bool _) => true
   | _ => false) &&
  kwargs.all (fun p =>
    p.1 == "id" || p.1 == "name" || p.1 == "description" || p.1 == "status")

/-- `assert_json_schema`: parses the body as JSON (distinct
`bodyNotJson` failure when the raw text is not JSON at all), calls
`schema(**body)` — a `TypeError` when the body is not a mapping — and
converts a pydantic `ValidationError` into the schema-validation
failure.  The pydantic model class is embedded as its validation
predicate over the keyword arguments. -/
def assert_json_schema (validate : List (String × JValue) → Bool)
    (response : Response) : Except PyError Unit :=
  match response.json_body with
  | none => .error .bodyNotJson
  | some (.obj fields) =>
    if validate fields then .ok () else .error .jsonSchemaFailed
  | some _ => .error .typeError

/-! ### XML assertions -/

/-- `assert_xml_tag_present` of `BaseResponseAsserts`: parses the body as
XML, then for every expected tag requires the tag to be the document
root's tag OR to occur among the root's descendants, raising with the
list of tags that are neither. -/
def assert_xml_tag_present (response : Response)
    (expected_tags : List String) : Except PyError Unit :=
  match response.xml_body with
  | none => .error .bodyNotXml
  | some root =>
    let errors := expected_tags.filter
      (fun tag => root.tag != tag && (findall_desc root tag).isEmpty)
    if errors.isEmpty then .ok () else .error (.xmlTagsNotFound errors)

/-- The single-tag `assert_xml_tag_present` of `ChallengesAsserts`
(same root-or-descendant rule for one tag). -/
def ChallengesAsserts_assert_xml_tag_present (response : Response)
    (expected_tag : String) : Except PyError Unit :=
  match response.xml_body with
  | none => .error .bodyNotXml
  | some root =>
    if root.tag != expected_tag && (findall_desc root expected_tag).isEmpty then
      .error (.xmlTagNotFound expected_tag)
    else .ok ()

/-- Python `str()` of the scalar JSON values the verified code compares
XML text against.  Containers are not given a faithful repr (no
verified comparison involves one). -/
def py_str : JValue → String
  | .null => "None"
  | .bool true => "True"
  | .bool false => "False"
  | .num n => toString n
  | .str s => s
  | .arr _ => "<list repr not modelled>"
  | .obj _ => "<dict repr not modelled>"

/-- The error-collecting loop of `assert_xml_tag_value`: for each
`(tag, expected)` pair, find every descendant with that tag; record
"not found" when there are none, otherwise compare each element's text
(`elem.text or ""`) against `str(expected)` and record the found values
when none matches. -/
def tag_value_issues (root : XmlElem) :
    List (String × JValue) → List TagIssue
  | [] => []
  | (tag, expected) :: rest =>
    let tail := tag_value_issues root rest
    let tag_elements := findall_desc root tag
    if tag_elements.isEmpty then .tagNotFound tag :: tail
    else
      let actual_values := tag_elements.map (fun e => e.textContent.getD "")
      if actual_values.any (fun a => a == py_str expected) then tail
      else .noValueMatch tag actual_values :: tail

/-- `assert_xml_tag_value`: parses the body as XML and raises with the
collected error list unless, for every requested tag, at least one
occurrence's text equals `str(expected)`. -/
def assert_xml_tag_value (response : Response)
    (tag_value_pairs : List (String × JValue)) : Except PyError Unit :=
  match response.xml_body with
  | none => .error .bodyNotXml
  | some root =>
    let errors := tag_value_issues root tag_value_pairs
    if errors.isEmpty then .ok () else .error (.xmlTagValueIssues errors)

/-! ### XSD schema validation and path registration -/

/-- The filesystem as seen by the XSD machinery: maps a path to the
validator denoted by the XSD document stored there, or `none` when no
file exists at that path. -/
def XsdFilesystem : Type := String → Option (XmlElem → Bool)

/-- `os.path.join(CURRENT_DIR, name)` for the schema resource dir. -/
def os_path_join (dir file : String) : String := dir ++ "/" ++ file

/-- The `XSDPaths.CHALLENGES_XSD` enum value (a path string). -/
def XSDPaths_CHALLENGES_XSD (current_dir : String) : String :=
  os_path_join current_dir "challenges.xsd"

/-- The `XSDPaths.TODOS_XSD` enum value (a path string). -/
def XSDPaths_TODOS_XSD (current_dir : String) : String :=
  os_path_join current_dir "todos.xsd"

/-- The `XSDPaths.path` property: returns the member's path string after
checking that the file exists, raising `FileNotFoundError` otherwise. -/
def XSDPaths_path (fs : XsdFilesystem) (value : String) :
    Except PyError String :=
  if (fs value).isSome then .ok value else .error (.fileNotFound value)

/-- The class-body binding `xsd_path = XSDPaths.TODOS_XSD.path` of
`TodosAsserts`: evaluated when the class is created (registration time),
it goes through the existence-checking `path` property. -/
def TodosAsserts_xsd_path (fs : XsdFilesystem) (current_dir : String) :
    Except PyError String :=
  XSDPaths_path fs (XSDPaths_TODOS_XSD current_dir)

/-- `assert_xml_schema`: parses the body as XML, opens the XSD file and
validates the tree against it.  `DocumentInvalid`, `IOError` (a missing
XSD file at validation time) and XSD parse errors are all caught by one
`except` clause and re-raised as the same schema-failure assertion. -/
def assert_xml_schema (fs : XsdFilesystem) (response : Response)
    (xsd_file : String) : Except PyError Unit :=
  match response.xml_body with
  | none => .error .bodyNotXml
  | some doc =>
    match fs xsd_file with
    | none => .error .xmlSchemaFailed
    | some valid => if valid doc then .ok () else .error .xmlSchemaFailed

/-! ### `get_all_key_values` and the query-filter verifier -/

/-- `get_all_key_values`: inspects the response's `content-type` header
(substring tests, defaulting to `""` when the header is absent).  XML
content types extract every descendant's text for each requested tag;
JSON content types run `_find_values_recursively` for each requested
key; any other content type skips extraction, leaving every key's list
empty.  The requested keys come from a dict whose values are ignored
here. -/
def get_all_key_values (response : Response)
    (data_keys_to_extract : List (String × JValue)) :
    Except PyError (List (String × List JValue)) :=
  let content_type := (headers_get response.headers "content-type").getD ""
  if substr_in "application/xml" content_type then
    match response.xml_body with
    | none => .error .bodyNotXml
    | some root =>
      .ok (data_keys_to_extract.map (fun p =>
        (p.1, (findall_desc root p.1).map
          (fun e => JValue.str (e.textContent.getD "")))))
  else if substr_in "application/json" content_type then
    match response.json_body with
    | none => .error .bodyNotJson
    | some body =>
      .ok (data_keys_to_extract.map (fun p =>
        (p.1, _find_values_recursively body p.1 [])))
  else
    .ok (data_keys_to_extract.map (fun p => (p.1, [])))

/-- `values.get(key, [])` on the extraction result. -/
def found_values_for (values : List (String × List JValue)) (key : String) :
    List JValue :=
  ((values.find? (fun p => p.1 == key)).map (fun p => p.2)).getD []

/-- The inner loop of `check_query_filter`: every found value must equal
the expected one; the first mismatching value raises.  An empty found
list passes (absence is acceptable). -/
def check_found_values (key : String) (expected : JValue) :
    List JValue → Except PyError Unit
  | [] => .ok ()
  | v :: rest =>
    if v = expected then check_found_values key expected rest
    else .error (.filterMismatch key v expected)

/-- The outer loop of `check_query_filter` over the filter params. -/
def query_filter_loop (values : List (String × List JValue)) :
    List (String × JValue) → Except PyError Unit
  | [] => .ok ()
  | (key, expected) :: rest =>
    match check_found_values key expected (found_values_for values key) with
    | .error e => .error e
    | .ok _ => query_filter_loop values rest

/-- `TodosAsserts.check_query_filter`: extracts all occurrences of each
filter key via `get_all_key_values` (re-raising its parse failures),
then requires EVERY found occurrence to equal the requested filter
value — zero occurrences pass. -/
def check_query_filter (response : Response)
    (params : List (String × JValue)) : Except PyError Unit :=
  match get_all_key_values response params with
  | .error e => .error e
  | .ok values => query_filter_loop values params

/-! ### The composite check runner (`comprehensive_checks`) -/

/-- The `checks` dictionary consumed by `comprehensive_checks`.  Fields
read with `checks.get(...)` conflate "key absent" and "value None" into
`none` (Python's `get` returns `None` for both, and `None` is falsy);
`request_headers` is read with `checks["request_headers"]` — raising
`KeyError` when absent — and then compared against `None`, so it keeps
the two levels apart. -/
structure Checks where
  status_code : Option Int := none
  response_time : Option Rat := none
  headers_present : Option (List String) := none
  header_values : Option (List (String × String)) := none
  schema : Option Bool := none
  key_present : Option (List String) := none
  key_value : Option (List (String × JValue)) := none
  request_headers : Option (Option (List (String × String))) := none

/-- The per-entity asserts object: the pydantic `schema` class attribute
(as a validation predicate) and the `xsd_path` class attribute, either
of which may be unset (`None`) on the base class. -/
structure AssertsSelf where
  schema : Option (List (String × JValue) → Bool) := none
  xsd_path : Option String := none

/-- The `is_xml` decision of `comprehensive_checks`:
`checks["request_headers"] is not None and
checks["request_headers"].get("Accept") == "application/xml"`. -/
def accept_is_xml : Option (List (String × String)) → Bool
  | some hdrs => dict_get hdrs "Accept" == some "application/xml"
  | none => false

/-- `comprehensive_checks`: the composite check runner.  Conditional on
truthiness of each `checks` entry (`0`, `0.0`, empty list/dict and
`None`/absent are all falsy), runs status code, response time, header
presence, header values; then, only for 2xx responses, determines the
JSON/XML expectation from `checks["request_headers"]` (a `KeyError`
when that key is absent), and conditionally runs schema validation
(preceded by a content-type header-value assertion, and a `ValueError`
when no schema/XSD is registered on the class), key presence, and key
value, each dispatched by format.  Failures propagate immediately
(the `try/except` re-raises). -/
def comprehensive_checks (self : AssertsSelf) (fs : XsdFilesystem)
    (response : Response) (checks : Checks) : Except PyError Unit :=
  andThen
    (match checks.status_code with
     | some sc => if sc ≠ 0 then assert_status_code response sc else .ok ()
     | none => .ok ()) <|
  andThen
    (match checks.response_time with
     | some t => if t ≠ 0 then assert_response_time response t else .ok ()
     | none => .ok ()) <|
  andThen
    (match checks.headers_present with
     | some hs =>
        if !hs.isEmpty then assert_headers_present response hs else .ok ()
     | none => .ok ()) <|
  andThen
    (match checks.header_values with
     | some hv =>
        if !hv.isEmpty then assert_header_values response hv else .ok ()
     | none => .ok ()) <|
  (if response.is_success then
    match checks.request_headers with
    | none => .error (.keyError "request_headers")
    | some rh =>
      let is_xml := accept_is_xml rh
      andThen
        (if checks.schema.getD false then
          (if is_xml then
            andThen
              (assert_header_values response
                [("content-type", "application/xml")])
              (match self.xsd_path with
               | some p => assert_xml_schema fs response p
               | none =>
                 .error (.valueError
                   "XSD path not defined for XML schema validation"))
          else
            andThen
              (assert_header_values response
                [("content-type", "application/json")])
              (match self.schema with
               | some validate => assert_json_schema validate response
               | none =>
                 .error (.valueError
                   "Schema not defined for JSON schema validation")))
        else .ok ()) <|
      andThen
        (match checks.key_present with
         | some ks =>
            if !ks.isEmpty then
              (if is_xml then assert_xml_tag_present response ks
               else assert_body_keys_present response ks)
            else .ok ()
         | none => .ok ())
        (match checks.key_value with
         | some kv =>
            if !kv.isEmpty then
              (if is_xml then assert_xml_tag_value response kv
               else assert_body_key_values response kv)
            else .ok ()
         | none => .ok ())
  else .ok ())

/-! ### Concrete fixtures used by the verified scenarios -/

/-- A JSON document with occurrences `[5, 5, 7]` for key `"K"`. -/
def doc157 : JValue :=
  .arr [.obj [("K", .num 5)], .obj [("K", .num 5)], .obj [("K", .num 7)]]

/-- A 2xx JSON response carrying `doc157`. -/
def resp157 : Response :=
  { status_code := 200, elapsed_seconds := 1,
    headers := [("content-type", "application/json")],
    json_body := some doc157, xml_body := none }

/-- A 2xx response whose body `{"a": {"b": 1}}` contains key `"b"` only
at nesting depth one. -/
def respNested : Response :=
  { status_code := 200, elapsed_seconds := 1,
    headers := [("content-type", "application/json")],
    json_body := some (.obj [("a", .obj [("b", .num 1)])]), xml_body := none }

/-- A 2xx response whose raw body parses as JSON (`{"id": 59}`) but whose
content-type header declares XML; the body is not well-formed XML. -/
def respJsonBodyXmlHeader : Response :=
  { status_code := 200, elapsed_seconds := 1,
    headers := [("content-type", "application/xml")],
    json_body := some (.obj [("id", .num 59)]), xml_body := none }

/-- A checks dictionary requesting only a body key-value check, with the
request made for JSON. -/
def checksKeyValueOnly : Checks :=
  { key_value := some [("id", .num 59)],
    request_headers := some (some [("Accept", "application/json")]) }

/-- A 2xx XML response whose root element is `<todo>` with no children. -/
def respXmlTodo : Response :=
  { status_code := 200, elapsed_seconds := 1,
    headers := [("content-type", "application/xml")],
    json_body := none, xml_body := some (.elem "todo" none []) }

/-- A 2xx response with an unsupported content type. -/
def respPlain : Response :=
  { status_code := 200, elapsed_seconds := 1,
    headers := [("content-type", "text/plain")],
    json_body := none, xml_body := none }

/-- The spec's concrete valid challenge record
`{"id": 59, "name": "X", "description": null, "status": false}` as
keyword arguments. -/
def challengeKwargs : List (String × JValue) :=
  [("id", .num 59), ("name", .str "X"), ("description", .null),
   ("status", .bool false)]

/-- A 2xx JSON response carrying the given body. -/
def mkJsonResp (b : JValue) : Response :=
  { status_code := 200, elapsed_seconds := 1,
    headers := [("content-type", "application/json")],
    json_body := some b, xml_body := none }

/-- A response whose raw body is not valid JSON. -/
def respNotJson : Response :=
  { status_code := 200, elapsed_seconds := 1,
    headers := [("content-type", "application/json")],
    json_body := none, xml_body := none }

/-! ### Supporting lemmas -/

theorem check_found_values_ok_iff (key : String) (expected : JValue)
    (l : List JValue) :
    check_found_values key expected l = .ok () ↔ ∀ v ∈ l, v = expected := by
  induction l with
  | nil => simp [check_found_values]
  | cons v rest ih =>
    by_cases h : v = expected <;> simp [check_found_values, h, ih]

theorem query_filter_loop_all_empty (values : List (String × List JValue))
    (hval : ∀ pr ∈ values, pr.2 = ([] : List JValue)) :
    ∀ params, query_filter_loop values params = .ok () := by
  intro params
  induction params with
  | nil => simp [query_filter_loop]
  | cons p rest ih =>
    obtain ⟨key, expected⟩ := p
    have hfound : found_values_for values key = [] := by
      unfold found_values_for
      cases hf : values.find? (fun pr => pr.1 == key) with
      | none => simp
      | some pr =>
        have := List.mem_of_find?_eq_some hf
        simp [hval pr this]
    simp [query_filter_loop, hfound, check_found_values, ih]

theorem missing_keys_in_body_obj (fields : List (String × JValue)) :
    ∀ keys, missing_keys_in_body (.obj fields) keys =
      .ok (keys.filter (fun k => (lookupField fields k).isNone)) := by
  intro keys
  induction keys with
  | nil => simp [missing_keys_in_body]
  | cons k rest ih =>
    cases h : lookupField fields k <;>
      simp [missing_keys_in_body, py_in_body, h, ih, List.filter_cons]

theorem get_all_key_values_json (resp : Response) (body : JValue)
    (params : List (String × JValue))
    (hct : headers_get resp.headers "content-type" = some "application/json")
    (hbody : resp.json_body = some body) :
    get_all_key_values resp params =
      .ok (params.map (fun p => (p.1, _find_values_recursively body p.1 []))) := by
  have h1 : substr_in "application/xml" "application/json" = false := by decide
  have h2 : substr_in "application/json" "application/json" = true := by decide
  simp [get_all_key_values, hct, h1, h2, hbody]

/-! ### Claim C1 -/

/-- C1: Any-vs-every asymmetry.  For a JSON body, the body-key-value
primitive passes whenever at least one extracted occurrence of the key
equals the expected value, while the query-filter verifier passes only
when every extracted occurrence equals it; concretely, for `doc157`
with occurrences `[5, 5, 7]` of `"K"`, the body-key-value check with
`5` passes while the query-filter check with `5` fails. -/
theorem c1_any_vs_every (resp : Response) (body : JValue) (key : String)
    (expected : JValue)
    (hbody : resp.json_body = some body)
    (hct : headers_get resp.headers "content-type" =
      some "application/json") :
    (expected ∈ find_key_values body key [] →
      assert_body_key_values resp [(key, expected)] = .ok ()) ∧
    (check_query_filter resp [(key, expected)] = .ok () →
      ∀ v ∈ _find_values_recursively body key [], v = expected) ∧
    (assert_body_key_values resp157 [("K", .num 5)] = .ok () ∧
      check_query_filter resp157 [("K", .num 5)] =
        .error (.filterMismatch "K" (.num 7) (.num 5))) := by
  refine ⟨?_, ?_, by rfl, by decide⟩
  · intro hmem
    have hne : (find_key_values body key []).isEmpty = false := by
      cases hfk : find_key_values body key [] with
      | nil => rw [hfk] at hmem; cases hmem
      | cons a l => rfl
    have hany :
        (find_key_values body key []).any (fun v => v == expected) = true :=
      List.any_eq_true.mpr ⟨expected, hmem, by simp⟩
    simp [assert_body_key_values, hbody, kv_mismatches, hne, hany]
  · intro hok v hv
    rw [check_query_filter,
      get_all_key_values_json resp body [(key, expected)] hct hbody] at hok
    simp only [List.map] at hok
    have hfv : found_values_for
        [(key, _find_values_recursively body key [])] key =
        _find_values_recursively body key [] := by
      simp [found_values_for]
    simp only [query_filter_loop, hfv] at hok
    cases hcf : check_found_values key expected
        (_find_values_recursively body key []) with
    | error e => rw [hcf] at hok; cases hok
    | ok u =>
      cases u
      exact (check_found_values_ok_iff key expected _).mp hcf v hv

/-- C1 witness: the theorem applied to the concrete `[5, 5, 7]`
response. -/
theorem c1_witness :
    resp157.json_body = some doc157 ∧
    headers_get resp157.headers "content-type" = some "application/json" ∧
    assert_body_key_values resp157 [("K", JValue.num 5)] = .ok () :=
  ⟨rfl, by decide,
    (c1_any_vs_every resp157 doc157 "K" (.num 5) rfl (by decide)).2.2.1⟩

/-! ### Claim C2 -/

/-- C2 counterexample: a 2xx response whose body is valid JSON but whose
content-type header declares XML, checked with a key-value check only
(no schema check), passes the Composite Check Runner — it is silently
parsed as JSON instead of failing with a content-type mismatch, so the
claim that any body check is gated by a content-type assertion is
false on this input. -/
theorem c2_counterexample :
    headers_get respJsonBodyXmlHeader.headers "content-type" =
      some "application/xml" ∧
    respJsonBodyXmlHeader.xml_body = none ∧
    checksKeyValueOnly.schema = none ∧
    comprehensive_checks {} (fun _ => none) respJsonBodyXmlHeader
      checksKeyValueOnly = .ok () :=
  ⟨by decide, rfl, rfl, by rfl⟩

/-- C2 (amended): the content-type header is asserted only when the
`schema` check is requested; in that case (here for the JSON side:
request headers do not ask for XML), a response whose content-type is
not exactly `application/json` fails with the content-type
header-value mismatch before any body parsing. -/
theorem c2_content_type_gate_schema_only (self : AssertsSelf)
    (fs : XsdFilesystem) (resp : Response) (checks : Checks)
    (rh : Option (List (String × String)))
    (hsucc : resp.is_success = true)
    (h1 : checks.status_code = none) (h2 : checks.response_time = none)
    (h3 : checks.headers_present = none) (h4 : checks.header_values = none)
    (hrh : checks.request_headers = some rh)
    (hnotxml : accept_is_xml rh = false)
    (hschema : checks.schema = some true)
    (hct : headers_get resp.headers "content-type" ≠
      some "application/json") :
    comprehensive_checks self fs resp checks =
      .error (.headerValueMismatches
        [("content-type", "application/json",
          headers_get resp.headers "content-type")]) := by
  simp only [comprehensive_checks, h1, h2, h3, h4, hrh, hschema, hsucc,
    hnotxml, andThen]
  simp [assert_header_values, hct]

/-- C2 witness: the amended theorem applied to the JSON-body,
XML-header response with the schema check requested. -/
theorem c2_witness :
    comprehensive_checks {} (fun _ => none) respJsonBodyXmlHeader
      { schema := some true,
        request_headers := some (some [("Accept", "application/json")]) } =
      .error (.headerValueMismatches
        [("content-type", "application/json", some "application/xml")]) :=
  c2_content_type_gate_schema_only {} (fun _ => none) respJsonBodyXmlHeader
    { schema := some true,
      request_headers := some (some [("Accept", "application/json")]) }
    (some [("Accept", "application/json")])
    rfl rfl rfl rfl rfl rfl (by decide) rfl (by decide)

/-! ### Claim C3 -/

/-- C3 counterexample: the recursive extractor finds key `"b"` (at
nesting depth one) in `{"a": {"b": 1}}`, yet the body-keys-present
primitive reports `"b"` missing — it tests only top-level membership,
so the claim that it passes when a key appears at any nesting depth is
false on this input. -/
theorem c3_counterexample :
    find_key_values (.obj [("a", .obj [("b", .num 1)])]) "b" [] =
      [.num 1] ∧
    assert_body_keys_present respNested ["b"] =
      .error (.bodyKeysNotFound ["b"]) :=
  ⟨by rfl, by rfl⟩

/-- C3 (amended): for a JSON-object body the body-keys-present primitive
passes iff every expected key is a member of the top-level mapping
(plain `k in body`, not the recursive extractor), and on failure it
reports exactly the keys missing from the top level. -/
theorem c3_top_level_only (resp : Response) (fields : List (String × JValue))
    (keys : List String) (hbody : resp.json_body = some (.obj fields)) :
    (assert_body_keys_present resp keys = .ok () ↔
      ∀ k ∈ keys, (lookupField fields k).isSome) ∧
    (assert_body_keys_present resp keys = .ok () ∨
      assert_body_keys_present resp keys =
        .error (.bodyKeysNotFound
          (keys.filter (fun k => (lookupField fields k).isNone)))) := by
  have hmk := missing_keys_in_body_obj fields keys
  constructor
  · simp only [assert_body_keys_present, hbody, hmk]
    constructor
    · intro h
      by_cases hc : (keys.filter
          (fun k => (lookupField fields k).isNone)).isEmpty = true
      · intro k hk
        have h2 := List.filter_eq_nil_iff.mp (List.isEmpty_iff.mp hc) k hk
        cases hl : lookupField fields k with
        | none => exact absurd (by simp [hl]) h2
        | some v => simp
      · have hc' : (keys.filter
            (fun k => (lookupField fields k).isNone)).isEmpty = false := by
          cases hcc : (keys.filter
              (fun k => (lookupField fields k).isNone)).isEmpty
          · rfl
          · exact absurd hcc hc
        simp [hc'] at h
    · intro hall
      have hnil : keys.filter (fun k => (lookupField fields k).isNone)
          = [] := by
        rw [List.filter_eq_nil_iff]
        intro k hk
        have hs := hall k hk
        cases hl : lookupField fields k with
        | none => rw [hl] at hs; exact absurd hs (by simp)
        | some v => simp
      simp [hnil]
  · simp only [assert_body_keys_present, hbody, hmk]
    cases hE : (keys.filter (fun k => (lookupField fields k).isNone)).isEmpty
    · right; rfl
    · left; rfl

/-- C3 witness: the amended theorem applied to a concrete body with both
keys at the top level. -/
theorem c3_witness :
    assert_body_keys_present (mkJsonResp (.obj challengeKwargs))
      ["id", "name"] = .ok () :=
  (c3_top_level_only (mkJsonResp (.obj challengeKwargs)) challengeKwargs
    ["id", "name"] rfl).1.mpr (by decide)

/-! ### Claim C4 -/

/-- C4: fail-fast ordering.  Whenever a status-code check is requested
and the response's status differs, the Composite Check Runner raises
exactly the status-code mismatch, regardless of what other checks (all
of which would run later) are present or would fail. -/
theorem c4_status_checked_first (self : AssertsSelf) (fs : XsdFilesystem)
    (resp : Response) (checks : Checks) (sc : Int)
    (hsc : checks.status_code = some sc) (hnz : sc ≠ 0)
    (hmismatch : resp.status_code ≠ sc) :
    comprehensive_checks self fs resp checks =
      .error (.statusMismatch sc resp.status_code) := by
  simp [comprehensive_checks, hsc, hnz, assert_status_code, hmismatch,
    andThen]

/-- C4 witness: a response failing both the status-code check and the
header-value check raises only the status-code failure. -/
theorem c4_witness :
    assert_header_values respPlain [("content-type", "application/json")] =
      .error (.headerValueMismatches
        [("content-type", "application/json", some "text/plain")]) ∧
    comprehensive_checks {} (fun _ => none)
      { respPlain with status_code := 404 }
      { status_code := some 200,
        header_values := some [("content-type", "application/json")],
        request_headers := some none } =
      .error (.statusMismatch 200 404) :=
  ⟨by decide,
    c4_status_checked_first {} (fun _ => none)
      { respPlain with status_code := 404 }
      { status_code := some 200,
        header_values := some [("content-type", "application/json")],
        request_headers := some none }
      200 rfl (by decide) (by decide)⟩

/-! ### Claim C5 -/

/-- C5: extractor completeness and absence.  The extractor's output,
read as a multiset, is exactly the multiset of values stored at the
occurrences of the key anywhere in the document (hence exactly N values
for N occurrences); when the key occurs nowhere the result is the empty
list (and the extractor is a total function — it never raises); and the
second copy of the extractor, `_find_values_recursively`, computes the
same list. -/
theorem c5_extractor_complete (doc : JValue) (key : String) :
    ((find_key_values doc key [] : Multiset JValue) = occ_values key doc) ∧
    ((find_key_values doc key []).length =
      Multiset.card (occ_values key doc)) ∧
    (occ_values key doc = 0 → find_key_values doc key [] = []) ∧
    (_find_values_recursively doc key [] = find_key_values doc key []) := by
  have hof : (find_key_values doc key [] : Multiset JValue) =
      occ_values key doc := by
    simpa using find_key_values_spec.1 doc key []
  refine ⟨hof, ?_, ?_,
    _find_values_recursively_eq_find_key_values.1 doc key []⟩
  · rw [← hof, Multiset.coe_card]
  · intro h0
    have hz : (find_key_values doc key [] : Multiset JValue) = 0 := by
      rw [hof, h0]
    exact (Multiset.coe_eq_zero (find_key_values doc key [])).mp hz

/-- C5 witness: the theorem applied to `doc157` for a present key and
for an absent key. -/
theorem c5_witness :
    (find_key_values doc157 "K" [] : Multiset JValue) =
      occ_values "K" doc157 ∧
    find_key_values doc157 "Z" [] = [] :=
  ⟨(c5_extractor_complete doc157 "K").1,
    (c5_extractor_complete doc157 "Z").2.2.1 (by rfl)⟩

/-! ### Claim C6 -/

/-- C6: schema round-trip for the challenge record schema (required int
id, required str name, optional str description, required bool status,
extras forbidden).  The spec's concrete record validates; removing the
required `status`, adding an unknown `extra` field, and wrong-typing
`id` each independently fail schema validation; an unparseable body
fails with the distinct not-JSON error instead. -/
theorem c6_challenge_schema_round_trip :
    assert_json_schema ChallengeSchema_validate
      (mkJsonResp (.obj challengeKwargs)) = .ok () ∧
    assert_json_schema ChallengeSchema_validate
      (mkJsonResp (.obj [("id", .num 59), ("name", .str "X"),
        ("description", .null)])) = .error .jsonSchemaFailed ∧
    assert_json_schema ChallengeSchema_validate
      (mkJsonResp (.obj (challengeKwargs ++ [("extra", .num 1)]))) =
      .error .jsonSchemaFailed ∧
    assert_json_schema ChallengeSchema_validate
      (mkJsonResp (.obj [("id", .str "abc"), ("name", .str "X"),
        ("description", .null), ("status", .bool false)])) =
      .error .jsonSchemaFailed ∧
    assert_json_schema ChallengeSchema_validate respNotJson =
      .error .bodyNotJson :=
  ⟨rfl, rfl, rfl, rfl, rfl⟩

/-! ### Claim C7 -/

/-- C7: XML tag-presence root-or-descendant rule.  For a well-formed XML
body the tag-presence primitive passes iff every expected tag is the
document root's tag or occurs among the root's descendants; in
particular the single-tag variant of `ChallengesAsserts` passes
whenever the root itself carries the sought tag, even with no matching
descendants. -/
theorem c7_root_or_descendant (resp : Response) (root : XmlElem)
    (tags : List String) (hxml : resp.xml_body = some root) :
    (assert_xml_tag_present resp tags = .ok () ↔
      ∀ tag ∈ tags, root.tag = tag ∨ findall_desc root tag ≠ []) ∧
    (∀ tag, root.tag = tag →
      ChallengesAsserts_assert_xml_tag_present resp tag = .ok ()) := by
  constructor
  · simp only [assert_xml_tag_present, hxml]
    constructor
    · intro h
      by_cases hc : (tags.filter
          (fun tag => root.tag != tag &&
            (findall_desc root tag).isEmpty)).isEmpty = true
      · intro tag htag
        have h2 := List.filter_eq_nil_iff.mp (List.isEmpty_iff.mp hc) tag htag
        simp only [Bool.and_eq_true, bne_iff_ne, List.isEmpty_iff, ne_eq,
          not_and_or, not_not] at h2
        exact h2
      · have hc' : (tags.filter
            (fun tag => root.tag != tag &&
              (findall_desc root tag).isEmpty)).isEmpty = false := by
          cases hcc : (tags.filter
              (fun tag => root.tag != tag &&
                (findall_desc root tag).isEmpty)).isEmpty
          · rfl
          · exact absurd hcc hc
        simp [hc'] at h
    · intro hall
      have hnil : (tags.filter
          (fun tag => root.tag != tag &&
            (findall_desc root tag).isEmpty)) = [] := by
        rw [List.filter_eq_nil_iff]
        intro tag htag
        simp only [Bool.and_eq_true, bne_iff_ne, List.isEmpty_iff, ne_eq]
        rintro ⟨hne, hempty⟩
        rcases hall tag htag with h | h
        · exact hne h
        · exact h hempty
      simp [hnil]
  · intro tag htag
    simp [ChallengesAsserts_assert_xml_tag_present, hxml, htag]

/-- C7 witness: a single-record XML document whose root element is the
sought tag, with no matching descendants, passes both primitives. -/
theorem c7_witness :
    assert_xml_tag_present respXmlTodo ["todo"] = .ok () ∧
    ChallengesAsserts_assert_xml_tag_present respXmlTodo "todo" = .ok () :=
  ⟨(c7_root_or_descendant respXmlTodo (.elem "todo" none []) ["todo"]
      rfl).1.mpr (by simp [XmlElem.tag]),
    (c7_root_or_descendant respXmlTodo (.elem "todo" none []) ["todo"]
      rfl).2 "todo" rfl⟩

/-! ### Claim C8 -/

/-- C8 counterexample: on a filesystem without the XSD file, the
registration-time class-body binding `xsd_path = XSDPaths.TODOS_XSD.path`
already raises `FileNotFoundError` (the `path` property checks
existence), contradicting the claim that registration does not raise
for an absent file. -/
theorem c8_counterexample :
    TodosAsserts_xsd_path (fun _ => none) "schemadir" =
      .error (.fileNotFound "schemadir/todos.xsd") := rfl

/-- C8 (amended): a missing XSD file is a hard error already at
registration time — binding the path on the per-entity asserts class
goes through the existence-checking `path` property and raises
`FileNotFoundError` exactly when the file is absent — and at validation
time a missing XSD file also fails (the `IOError` from opening it is
re-raised as the schema-failure assertion). -/
theorem c8_registration_time_check (fs : XsdFilesystem)
    (current_dir : String) :
    (fs (XSDPaths_TODOS_XSD current_dir) = none →
      TodosAsserts_xsd_path fs current_dir =
        .error (.fileNotFound (XSDPaths_TODOS_XSD current_dir))) ∧
    (∀ v, fs (XSDPaths_TODOS_XSD current_dir) = some v →
      TodosAsserts_xsd_path fs current_dir =
        .ok (XSDPaths_TODOS_XSD current_dir)) ∧
    (∀ (resp : Response) (root : XmlElem) (p : String),
      resp.xml_body = some root → fs p = none →
      assert_xml_schema fs resp p = .error .xmlSchemaFailed) := by
  refine ⟨?_, ?_, ?_⟩
  · intro h; simp [TodosAsserts_xsd_path, XSDPaths_path, h]
  · intro v h; simp [TodosAsserts_xsd_path, XSDPaths_path, h]
  · intro resp root p hx hf; simp [assert_xml_schema, hx, hf]

/-- C8 witness: the amended theorem applied to the empty filesystem, at
registration time and at validation time. -/
theorem c8_witness :
    TodosAsserts_xsd_path (fun _ => none) "dir2" =
      .error (.fileNotFound "dir2/todos.xsd") ∧
    assert_xml_schema (fun _ => none) respXmlTodo "dir2/todos.xsd" =
      .error .xmlSchemaFailed :=
  ⟨(c8_registration_time_check (fun _ => none) "dir2").1 rfl,
    (c8_registration_time_check (fun _ => none) "dir2").2.2 respXmlTodo
      (.elem "todo" none []) "dir2/todos.xsd" rfl rfl⟩

/-! ### Claim C9 -/

/-- C9: unsupported content type.  When the content-type header contains
neither `application/xml` nor `application/json`, `get_all_key_values`
returns an empty list for every requested key without raising, and the
query-filter verifier therefore passes vacuously for any filter
parameters. -/
theorem c9_unsupported_content_type (resp : Response)
    (params : List (String × JValue))
    (hxml : substr_in "application/xml"
      ((headers_get resp.headers "content-type").getD "") = false)
    (hjson : substr_in "application/json"
      ((headers_get resp.headers "content-type").getD "") = false) :
    get_all_key_values resp params =
      .ok (params.map (fun p => (p.1, ([] : List JValue)))) ∧
    check_query_filter resp params = .ok () := by
  have hg : get_all_key_values resp params =
      .ok (params.map (fun p => (p.1, ([] : List JValue)))) := by
    simp [get_all_key_values, hxml, hjson]
  refine ⟨hg, ?_⟩
  rw [check_query_filter, hg]
  exact query_filter_loop_all_empty _ (by simp) params

/-- C9 witness: the theorem applied to a `text/plain` response. -/
theorem c9_witness :
    get_all_key_values respPlain [("a", JValue.num 1)] = .ok [("a", [])] ∧
    check_query_filter respPlain [("a", JValue.num 1)] = .ok () :=
  ⟨(c9_unsupported_content_type respPlain [("a", JValue.num 1)]
      (by decide) (by decide)).1,
    (c9_unsupported_content_type respPlain [("a", JValue.num 1)]
      (by decide) (by decide)).2⟩

/-! ### Claim C10 -/

/-- C10: for any checks mapping lacking the `request_headers` entry
(with no pre-body checks requested, and regardless of which body checks
are requested), the Composite Check Runner fails with a `KeyError`
lookup failure on every 2xx response — the entry is read before any
body check is consulted — while non-2xx responses complete without
needing it. -/
theorem c10_request_headers_lookup (self : AssertsSelf)
    (fs : XsdFilesystem) (resp : Response) (sch : Option Bool)
    (kp : Option (List String)) (kv : Option (List (String × JValue))) :
    comprehensive_checks self fs resp
      { status_code := none, response_time := none, headers_present := none,
        header_values := none, schema := sch, key_present := kp,
        key_value := kv, request_headers := none } =
      (if resp.is_success then .error (.keyError "request_headers")
       else .ok ()) := by
  cases h : resp.is_success <;> simp [comprehensive_checks, andThen, h]

end NewPetApi
